import Mathlib

/-!
Verification of the UTBoost experiment core (staged localization pipeline,
source compression, context windows, repository tree rendering, response
parsing, and test injection), as a shallow embedding of the Python sources
in `UTBoost_experiment/`.

Strings are modelled by Lean `String` (a packed `List Char`); Python text
files are modelled by total functions from path to optional content.  All
definitions are computable and follow the Python source line by line; any
divergence forced by the embedding is noted in a comment at the definition.
-/

/-! ### Python string primitives

Executable models of the Python `str` methods used by the sources.  They
work on `List Char` so that everything reduces structurally in the kernel.
-/

/-- Python `str.isspace` / `\s` character class (ASCII part): space, tab,
newline, carriage return, vertical tab, form feed. -/
def isPySpace (c : Char) : Bool :=
  c = ' ' || c = '\t' || c = '\n' || c = '\r' || c = '\x0b' || c = '\x0c'

/-- Python `\w` word-character class (ASCII part): alphanumeric or underscore. -/
def isWordChar (c : Char) : Bool :=
  c.isAlphanum || c = '_'

/-- Python `str.strip()` with no argument: remove whitespace from both ends. -/
def pyStrip (s : String) : String :=
  String.mk (((s.toList.dropWhile isPySpace).reverse.dropWhile isPySpace).reverse)

/-- Python `str.strip(chars)`: remove any characters of `set` from both ends. -/
def pyStripChars (set : String) (s : String) : String :=
  String.mk (((s.toList.dropWhile (set.toList.contains ·)).reverse.dropWhile
    (set.toList.contains ·)).reverse)

/-- Python `str.startswith(p)`. -/
def pyStartsWith (p s : String) : Bool :=
  p.toList.isPrefixOf s.toList

/-- Helper for `pySplitLines`: splits at each `'\n'`, separator dropped. -/
def pySplitNlAux : List Char → List Char → List String
  | [], acc => [String.mk acc.reverse]
  | c :: cs, acc =>
    if c = '\n' then String.mk acc.reverse :: pySplitNlAux cs []
    else pySplitNlAux cs (c :: acc)

/-- Python `str.split('\n')`: e.g. `"a\nb\n"` becomes `["a", "b", ""]` and
`""` becomes `[""]`. -/
def pySplitLines (s : String) : List String :=
  pySplitNlAux s.toList []

/-- Helper for `pyReadlines`: splits after each `'\n'`, keeping the newline;
a final piece without a newline is kept only if nonempty. -/
def pyReadlinesAux : List Char → List Char → List String
  | [], acc => if acc.isEmpty then [] else [String.mk acc.reverse]
  | c :: cs, acc =>
    if c = '\n' then String.mk (acc.reverse ++ ['\n']) :: pyReadlinesAux cs []
    else pyReadlinesAux cs (c :: acc)

/-- Python file iteration / `readlines()`: the lines of a text, each keeping
its trailing `'\n'` (universal-newline translation of `'\r\n'` is elided:
the sources only ever produce `'\n'`-terminated text). -/
def pyReadlines (s : String) : List String :=
  pyReadlinesAux s.toList []

/-- Python substring test `needle in hay` on character lists. -/
def listContains (needle : List Char) : List Char → Bool
  | [] => needle.isEmpty
  | c :: cs => needle.isPrefixOf (c :: cs) || listContains needle cs

/-- Python `s * n` string repetition (here used as `prefix-glyph * indent`). -/
def strRepeat (s : String) : Nat → String
  | 0 => ""
  | n + 1 => s ++ strRepeat s n

/-- Effective bounds of a Python slice `l[s:e]` (step 1), per the language
reference: a negative index counts from the end, then both bounds are
clamped into `[0, len]`. -/
def pySliceBounds (n s e : Int) : Nat × Nat :=
  let s' := if s < 0 then max (n + s) 0 else min s n
  let e' := if e < 0 then max (n + e) 0 else min e n
  (s'.toNat, e'.toNat)

/-- Python list slice `l[s:e]` with step 1. -/
def pySlice {α : Type} (l : List α) (s e : Int) : List α :=
  let (a, b) := pySliceBounds (l.length : Int) s e
  (l.take b).drop a

/-- Lexicographic code-point comparison of character lists: the order in
which Python compares strings. -/
def pyLeChars : List Char → List Char → Bool
  | [], _ => true
  | _ :: _, [] => false
  | a :: as, b :: bs => if a = b then pyLeChars as bs else decide (a < b)

/-- Python string comparison `a <= b` (code-point lexicographic). -/
def pyStrLe (a b : String) : Bool :=
  pyLeChars a.toList b.toList

/-- Python `sorted` on strings.  The Python sort is a stable comparison sort
over the code-point lexicographic order; over a linear order every correct
sort returns the same list, so it is modelled by insertion sort. -/
def pySorted (l : List String) : List String :=
  List.insertionSort (fun a b => pyStrLe a b = true) l

/-- A Python `dict` with string keys and values, in insertion order
(the task records and `repo_info` dictionaries of the sources). -/
abbrev PyDict : Type := List (String × String)

/-- Python `d[k]` lookup, as an `Option` (a missing key raises `KeyError`). -/
def dictLookup (d : PyDict) (k : String) : Option String :=
  List.lookup k d

/-- Python `d.get(k, default)`. -/
def pyGetD (d : PyDict) (k : String) (default : String) : String :=
  (dictLookup d k).getD default

/-- A single-quote character, used inside modelled Python literals. -/
def pySQuote : String := String.singleton (Char.ofNat 39)

/-- Python `repr` of a string-valued dict: `{'k': 'v', ...}`
(used by the f-string interpolations `{repo_info}` and `{task_data}`). -/
def pyDictRepr (d : PyDict) : String :=
  "\x7b" ++ String.join (List.intersperse ", "
    (d.map (fun kv => pySQuote ++ kv.1 ++ pySQuote ++ ": " ++ pySQuote ++ kv.2 ++ pySQuote))) ++ "\x7d"

/-! ### `CodebaseAnalyzer.function_class_localization` — source compression

From `.history/UTBoost_experiment/codebase_analyzer_20250415143353.py`,
lines 36–59: the per-file compression loop.
-/

/-- The lazy tail `.*?:` of the header regexes: consume non-newline
characters up to and including the first `':'`; fail if none before the
end of the line (`.` does not match `'\n'`). -/
def upToColon : List Char → Option (List Char)
  | [] => none
  | c :: cs =>
    if c = ':' then some [':']
    else if c = '\n' then none
    else (upToColon cs).map (c :: ·)

/-- `re.match(r'^(kw\s+\w+.*?:)', line)` for a literal keyword `kw`
(`class` or `def`), returning `group(1)`.  Backtracking collapses: `\s+`
and `\w+` take their maximal runs (a given-back character could never be
matched by the following atom, and no `':'` occurs inside either run), and
the lazy `.*?:` stops at the first `':'` after them. -/
def headerMatchTail (k r1 : List Char) : Option String :=
  if (r1.takeWhile isPySpace).isEmpty then none
  else if ((r1.dropWhile isPySpace).takeWhile isWordChar).isEmpty then none
  else
    match upToColon ((r1.dropWhile isPySpace).dropWhile isWordChar) with
    | none => none
    | some mid =>
      some (String.mk (k ++ r1.takeWhile isPySpace
        ++ (r1.dropWhile isPySpace).takeWhile isWordChar ++ mid))

def headerMatch (kw : String) (line : String) : Option String :=
  if kw.toList.isPrefixOf line.toList then
    headerMatchTail kw.toList (line.toList.drop kw.toList.length)
  else none

/-- `re.match(r'^@\w+', line)`: the line starts with `'@'` followed by at
least one word character. -/
def decoratorMatch (line : String) : Bool :=
  match line.toList with
  | c :: c2 :: _ => c = '@' && isWordChar c2
  | _ => false

/-- The loop state of the compression scan: the two in-scope flags and the
headers collected so far. -/
structure CompressState where
  in_class : Bool
  in_function : Bool
  compressed : List String

/-- One iteration of the compression loop (the `if`/`elif` chain of
`function_class_localization`, lines 41–57 of the snapshot). -/
def compressLine (st : CompressState) (line : String) : CompressState :=
  if decoratorMatch line then
    { st with compressed := st.compressed ++ [pyStrip line] }
  else
    match headerMatch "class" line with
    | some g => { st with compressed := st.compressed ++ [g], in_class := true }
    | none =>
      match headerMatch "def" line with
      | some g => { st with compressed := st.compressed ++ [g], in_function := true }
      | none =>
        if st.in_class && pyStrip line == "" then { st with in_class := false }
        else if st.in_function && pyStrip line == "" then { st with in_function := false }
        else st

/-- Compression of the text of one file: the ordered header lines collected by
scanning the lines of the file (`for line in f`) with `compressLine`.
(`function_class_localization` then joins them with `'\n'` into the
prompt entry `compressed_files[file_path]`.) -/
def compressFile (text : String) : List String :=
  ((pyReadlines text).foldl compressLine ⟨false, false, []⟩).compressed


/-! ### Filesystem model

The sources touch the filesystem through `os.listdir`, `os.path.isdir`,
`Path.exists` / `Path.is_file`, `open(..., "r")` and `open(..., "a")`.
A snapshot is modelled by total functions on paths; `contents p = some c`
means `p` is an existing regular file with text `c` (directories carry no
contents), and `writable p` means `p` can be opened for append.
-/

structure FS where
  listdir : String → List String
  isdir : String → Bool
  contents : String → Option String
  writable : String → Bool

/-- `os.path.join(dir_path, item)` for a relative `item`. -/
def pathJoin (dir_path item : String) : String :=
  dir_path ++ "/" ++ item

/-! ### `CodebaseAnalyzer.file_level_localization` — `build_tree`

From `.history/UTBoost_experiment/codebase_analyzer_20250415143353.py`,
lines 179–190.  Python recurses along the directory tree; the model takes
an explicit recursion-depth fuel (the path space of the model may have cycles,
while every Python run on a finite directory tree corresponds to a call
with fuel at least the depth of the tree).
-/

def build_tree (fs : FS) : Nat → String → Nat → String
  | 0, _, _ => ""
  | fuel + 1, dir_path, indent =>
    (pySorted (fs.listdir dir_path)).foldl
      (fun tree_str item =>
        let full_path := pathJoin dir_path item
        if fs.isdir full_path then
          tree_str ++ strRepeat "│   " indent ++ "├── " ++ item ++ "/\n"
            ++ build_tree fs fuel full_path (indent + 1)
        else
          tree_str ++ strRepeat "│   " indent ++ "├── " ++ item ++ "\n")
      ""

/-! ### `TestGenerator.get_context_window`

From `.history/UTBoost_experiment/utboost_test_generator_20250415141700.py`,
lines 45–51.  `None` means Python would raise `FileNotFoundError` from
`open`; for an existing file the function is total.
-/

def get_context_window (fs : FS) (file_path : String) (target_lines : Int × Int)
    (window_size : Int) : Option String :=
  (fs.contents file_path).map fun text =>
    let lines := pyReadlines text
    let start := max 0 (target_lines.1 - window_size)
    let stop := min (lines.length : Int) (target_lines.2 + window_size)
    String.join (pySlice lines start stop)

/-! ### `ContextGenerator` — `.history/UTBoost_experiment/context_script_20250417152827.py`
-/

/-- The exceptions raised inside `process_task` / `get_llm_response`. -/
inductive LlmError where
  | valueError (msg : String)
  | keyError (key : String)
deriving DecidableEq

/-- The `ContextGenerator` object: `self.client` is `None` when no OpenAI
API key was provided; a configured client is modelled as a deterministic
oracle from prompt to completion (the only thing `process_task` observes). -/
structure ContextGenerator where
  github_token : Option String
  client : Option (String → String)

/-- `ContextGenerator.get_llm_response` (lines 45–63).  The extra `log`
argument records the prompts of the requests actually issued to the
external service, so that "no request is made" and "never retried" are
observable; `model` is forwarded to the external API and does not affect
the oracle of the model. -/
def get_llm_response (gen : ContextGenerator) (log : List String)
    (prompt : String) (model : String) : List String × Except LlmError String :=
  match gen.client with
  | none => (log, Except.error (LlmError.valueError "OpenAI API key not provided"))
  | some complete =>
    let _ := model
    (log ++ [prompt], Except.ok (complete prompt))

/-- `ContextGenerator.extract_top_files` (lines 65–81): keep the lines
starting with `"- "`, and for each take the part before the first `'('`,
then `strip` with argument `"- "`, then plain `strip`.  Written as the
accumulate-in-a-loop of the source so that order facts are theorems, not
definitions. -/
def extract_top_files (llm_response : String) : List String :=
  (pySplitLines llm_response).foldl
    (fun files line =>
      if pyStartsWith "- " line then
        files ++ [pyStrip (pyStripChars "- " (String.mk (line.toList.takeWhile (· ≠ '('))))]
      else files)
    []

/-- The FUNCTION-stage candidate extraction inlined at line 123 of
`process_task`: the comprehension keeping the response lines that start
with the bullet marker `"- "` and stripping `-` and space from both ends
of each. -/
def pyDashCandidates (resp : String) : List String :=
  ((pySplitLines resp).filter (fun l => pyStartsWith "- " l)).map (pyStripChars "- ")

/-- The `CodebaseAnalyzer` interface exactly as `process_task` invokes it
(`derive_repo_info`, then the three static prompt builders with keyword
arguments `repo_owner`, `repo_name`, candidate list, issue, patch,
`github_token`).  The builders are parameters here: no checked-in
`CodebaseAnalyzer` snapshot defines `derive_repo_info`, and the checked-in
prompt builders take `repo_path` instead of the keyword arguments passed
at these call sites, so the call would fail in Python; the claims settled
against `process_task` concern only its stage sequencing, which is
independent of how the prompt text is produced. -/
structure AnalyzerStubs where
  derive_repo_info : PyDict → PyDict
  file_level_localization : String → String → String → String → Option String → String
  function_class_localization : String → String → List String → String → String → Option String → String
  line_level_localization : String → String → List String → String → String → Option String → String

/-- The dictionary returned by `process_task` (lines 160–166). -/
structure TaskResult where
  repository_info : PyDict
  file_level_analysis : String
  function_class_analysis : String
  line_level_analysis : String
  test_case : String

/-- The test-case prompt f-string of `process_task` (lines 131–157);
`{repo_info}` and `{task_data}` interpolate the dict reprs. -/
def testCasePrompt (repo_info : PyDict) (file_response func_response line_response : String)
    (task_data : PyDict) : String :=
  "Based on the following information, generate a test case:\n\nRepository Information:\n"
    ++ pyDictRepr repo_info
    ++ "\n\nFile Level Analysis:\n" ++ file_response
    ++ "\n\nFunction/Class Analysis:\n" ++ func_response
    ++ "\n\nLine Level Analysis:\n" ++ line_response
    ++ "\n\nTask Information:\n" ++ pyDictRepr task_data
    ++ "\n\nOriginal Patch:\n" ++ pyGetD task_data "model_patch" ""
    ++ "\n\nGenerate a comprehensive test case that:\n1. Tests the identified functionality\n2. Includes necessary imports\n3. Follows the project"
    ++ pySQuote
    ++ "s testing conventions\n4. Handles edge cases\n5. Includes proper documentation\n"

/-- `ContextGenerator.process_task` (lines 83–166): the three localization
stages followed by test-case generation, carrying the parsed output of each stage
forward, with no emptiness check anywhere.  An `Except.error` is a
propagated Python exception; the `List String` is the log of generative
requests issued.  The keyword arguments at each prompt-builder call site
subscript `repo_info` (`repo_info["repo_owner"]`, `repo_info["repo_name"]`,
lines 98–99, 110–111 and 121–122), so a missing key raises `KeyError`
there — before the request of that stage is issued; keyword arguments
evaluate left to right, hence `repo_owner` is checked first.  The `.get`
accesses on `task_data` default and never raise. -/
def process_task (A : AnalyzerStubs) (gen : ContextGenerator) (task_data : PyDict) :
    List String × Except LlmError TaskResult :=
  let repo_info := A.derive_repo_info task_data
  match dictLookup repo_info "repo_owner", dictLookup repo_info "repo_name" with
  | none, _ => ([], Except.error (LlmError.keyError "repo_owner"))
  | some _, none => ([], Except.error (LlmError.keyError "repo_name"))
  | some ro1, some rn1 =>
  let file_prompt := A.file_level_localization ro1 rn1
    (pyGetD task_data "issue_description" "") (pyGetD task_data "model_patch" "")
    gen.github_token
  match get_llm_response gen [] file_prompt "gpt-3.5-turbo" with
  | (log, Except.error e) => (log, Except.error e)
  | (log, Except.ok file_response) =>
  let top_files := extract_top_files file_response
  match dictLookup repo_info "repo_owner", dictLookup repo_info "repo_name" with
  | none, _ => (log, Except.error (LlmError.keyError "repo_owner"))
  | some _, none => (log, Except.error (LlmError.keyError "repo_name"))
  | some ro2, some rn2 =>
  let func_prompt := A.function_class_localization ro2 rn2
    top_files (pyGetD task_data "issue_description" "") (pyGetD task_data "model_patch" "")
    gen.github_token
  match get_llm_response gen log func_prompt "gpt-3.5-turbo" with
  | (log2, Except.error e) => (log2, Except.error e)
  | (log2, Except.ok func_response) =>
  let target_functions := pyDashCandidates func_response
  match dictLookup repo_info "repo_owner", dictLookup repo_info "repo_name" with
  | none, _ => (log2, Except.error (LlmError.keyError "repo_owner"))
  | some _, none => (log2, Except.error (LlmError.keyError "repo_name"))
  | some ro3, some rn3 =>
  let line_prompt := A.line_level_localization ro3 rn3
    target_functions (pyGetD task_data "issue_description" "") (pyGetD task_data "model_patch" "")
    gen.github_token
  match get_llm_response gen log2 line_prompt "gpt-3.5-turbo" with
  | (log3, Except.error e) => (log3, Except.error e)
  | (log3, Except.ok line_response) =>
  match get_llm_response gen log3
      (testCasePrompt repo_info file_response func_response line_response task_data)
      "gpt-3.5-turbo" with
  | (log4, Except.error e) => (log4, Except.error e)
  | (log4, Except.ok test_case) =>
    (log4, Except.ok ⟨repo_info, file_response, func_response, line_response, test_case⟩)

/-! ### `inject_tests` — the two checked-in versions

The live file `UTBoost_experiment/swe_bench_harness.py` (identical to the
last snapshot `swe_bench_harness_20250419213236.py`) appends
unconditionally.  The earlier snapshot
`swe_bench_harness_20250419213149.py` validates its inputs and checks a
sentinel marker before appending.  Each returns the possibly-updated
filesystem together with the normal return value or the raised exception;
a raise leaves the filesystem unchanged, matching the Python control flow
(every raise happens before the single append).
-/

inductive InjectError where
  | valueError (msg : String)
  | keyError
  | fileNotFound
  | permissionDenied
deriving DecidableEq

/-- The sentinel text checked and written by both versions. -/
def sentinel : String := "# UTBoost Generated Tests"

namespace Harness

/-- `inject_tests` of `UTBoost_experiment/swe_bench_harness.py` (lines 2–7):
read the target path from the task record, open for append (creating a
missing file, raising `PermissionError` when the open fails), and append
the marker line and the generated text. -/
def inject_tests (fs : FS) (task_instance : PyDict) (utboost_tests : String) :
    FS × Except InjectError String :=
  match dictLookup task_instance "test_file" with
  | none => (fs, Except.error InjectError.keyError)
  | some test_file =>
    if fs.writable test_file then
      let existing := (fs.contents test_file).getD ""
      ({ fs with contents := fun p =>
          if p = test_file then some (existing ++ "\n\n# UTBoost Generated Tests\n" ++ utboost_tests)
          else fs.contents p },
       Except.ok test_file)
    else (fs, Except.error InjectError.permissionDenied)

end Harness

namespace HistoryHarness

/-- The `formatted_tests` string of the snapshot (lines 43–44):
separator, sentinel, separator, stripped tests, newline. -/
def formatted_tests (utboost_tests : String) : String :=
  let separator := "\n" ++ String.mk (List.replicate 80 '#') ++ "\n"
  separator ++ "# UTBoost Generated Tests" ++ separator ++ pyStrip utboost_tests ++ "\n"

/-- `inject_tests` of `swe_bench_harness_20250419213149.py` (lines 2–56):
validate the inputs, require the target to be an existing regular file,
return the unchanged path if the sentinel is already present, otherwise
append the formatted block (raising `PermissionError` if the file cannot
be opened for append).  The `isinstance(utboost_tests, str)` check is
satisfied by typing. -/
def inject_tests (fs : FS) (task_instance : PyDict) (utboost_tests : String) :
    FS × Except InjectError String :=
  if utboost_tests = "" then
    (fs, Except.error (InjectError.valueError "utboost_tests must be a non-empty string"))
  else if (dictLookup task_instance "test_file").isNone then
    (fs, Except.error (InjectError.valueError
      ("task_instance must contain " ++ pySQuote ++ "test_file" ++ pySQuote ++ " key")))
  else
    let test_file := (dictLookup task_instance "test_file").getD ""
    match fs.contents test_file with
    | none =>
      if fs.isdir test_file then
        (fs, Except.error (InjectError.valueError ("Path is not a file: " ++ test_file)))
      else
        (fs, Except.error InjectError.fileNotFound)
    | some existing_content =>
      if listContains sentinel.toList existing_content.toList then
        (fs, Except.ok test_file)
      else if fs.writable test_file then
        ({ fs with contents := fun p =>
            if p = test_file then some (existing_content ++ formatted_tests utboost_tests)
            else fs.contents p },
         Except.ok test_file)
      else (fs, Except.error InjectError.permissionDenied)

end HistoryHarness

/-! ### Concrete snapshots used as test inputs -/

/-- One writable file `t.py` with content `"x"`. -/
def fsOneFile : FS :=
  ⟨fun _ => [], fun _ => false, fun p => if p = "t.py" then some "x" else none, fun _ => true⟩

/-- No file exists; everything is writable (appending creates files). -/
def fsNoFile : FS :=
  ⟨fun _ => [], fun _ => false, fun _ => none, fun _ => true⟩

/-- One file `t.py` with content `"x"` that cannot be opened for append. -/
def fsLocked : FS :=
  ⟨fun _ => [], fun _ => false, fun p => if p = "t.py" then some "x" else none, fun _ => false⟩

/-- A task record whose target test file is `t.py`. -/
def taskT : PyDict := [("test_file", "t.py")]

/-! ### Order facts about `pyStrLe`

`pyStrLe` is a total, transitive, antisymmetric comparison, so `pySorted`
is invariant under permutation of its input — the fact behind the
determinism of `build_tree`.
-/

theorem pyLeChars_total (a b : List Char) : pyLeChars a b = true ∨ pyLeChars b a = true := by
  induction a generalizing b with
  | nil => left; rfl
  | cons x xs ih =>
    cases b with
    | nil => right; rfl
    | cons y ys =>
      by_cases hxy : x = y
      · subst hxy
        simpa [pyLeChars] using ih ys
      · rcases lt_or_gt_of_ne hxy with h | h
        · left; simp [pyLeChars, hxy, h]
        · right; simp [pyLeChars, Ne.symm hxy, h]

theorem pyLeChars_antisymm {a b : List Char} (hab : pyLeChars a b = true)
    (hba : pyLeChars b a = true) : a = b := by
  induction a generalizing b with
  | nil =>
    cases b with
    | nil => rfl
    | cons y ys => simp [pyLeChars] at hba
  | cons x xs ih =>
    cases b with
    | nil => simp [pyLeChars] at hab
    | cons y ys =>
      by_cases hxy : x = y
      · subst hxy
        simp only [pyLeChars, if_pos rfl] at hab hba
        exact congrArg _ (ih hab hba)
      · simp only [pyLeChars, if_neg hxy, if_neg (Ne.symm hxy), decide_eq_true_eq] at hab hba
        exact absurd hba (lt_asymm hab)

theorem pyLeChars_trans {a b c : List Char} (hab : pyLeChars a b = true)
    (hbc : pyLeChars b c = true) : pyLeChars a c = true := by
  induction a generalizing b c with
  | nil => rfl
  | cons x xs ih =>
    cases b with
    | nil => simp [pyLeChars] at hab
    | cons y ys =>
      cases c with
      | nil => simp [pyLeChars] at hbc
      | cons z zs =>
        by_cases hxy : x = y
        · subst hxy
          by_cases hyz : x = z
          · subst hyz
            simp only [pyLeChars, if_pos rfl] at hab hbc ⊢
            exact ih hab hbc
          · simp only [pyLeChars, if_pos rfl, if_neg hyz] at hab hbc ⊢
            exact hbc
        · by_cases hyz : y = z
          · subst hyz
            simp only [pyLeChars, if_neg hxy] at hab ⊢
            exact hab
          · simp only [pyLeChars, if_neg hxy, if_neg hyz, decide_eq_true_eq] at hab hbc
            have hxz : x < z := lt_trans hab hbc
            simp [pyLeChars, ne_of_lt hxz, hxz]

instance : IsTotal String (fun a b => pyStrLe a b = true) :=
  ⟨fun a b => pyLeChars_total a.toList b.toList⟩

instance : IsTrans String (fun a b => pyStrLe a b = true) :=
  ⟨fun _ _ _ hab hbc => pyLeChars_trans hab hbc⟩

instance : IsAntisymm String (fun a b => pyStrLe a b = true) :=
  ⟨fun a b hab hba => by
    have h := pyLeChars_antisymm hab hba
    cases a; cases b
    exact congrArg String.mk h⟩

/-- Sorting is a function of the multiset of entries: permuted inputs sort
to the identical list. -/
theorem pySorted_perm_eq {l1 l2 : List String} (h : l1.Perm l2) :
    pySorted l1 = pySorted l2 :=
  List.eq_of_perm_of_sorted
    ((List.perm_insertionSort _ _).trans (h.trans (List.perm_insertionSort _ _).symm))
    (List.sorted_insertionSort _ _) (List.sorted_insertionSort _ _)

/-! ### Helper lemmas -/

theorem listContains_of_isPrefixOf {n h : List Char} (hp : n.isPrefixOf h = true) :
    listContains n h = true := by
  cases h with
  | nil =>
    cases n with
    | nil => rfl
    | cons c cs => simp [List.isPrefixOf] at hp
  | cons c cs => simp [listContains, hp]

theorem listContains_cons {n t : List Char} (c : Char) (h : listContains n t = true) :
    listContains n (c :: t) = true := by
  simp [listContains, h]

theorem isPrefixOf_append_self (n suf : List Char) : n.isPrefixOf (n ++ suf) = true := by
  induction n with
  | nil => simp
  | cons c cs ih => simp [ih]

/-- A needle is found in any text that carries it verbatim between a
prefix and a suffix: the substance of the sentinel check. -/
theorem listContains_sandwich (n pre suf : List Char) :
    listContains n (pre ++ n ++ suf) = true := by
  induction pre with
  | nil =>
    simp only [List.nil_append]
    exact listContains_of_isPrefixOf (isPrefixOf_append_self n suf)
  | cons c cs ih => exact listContains_cons c ih

/-- A body line that starts with whitespace and is not blank is ignored by
the compression loop: it matches none of the three regexes and neither
blank-line branch. -/
theorem compressLine_skip (st : CompressState) (l : String) (c : Char) (cs : List Char)
    (hl : l.toList = c :: cs) (hc : isPySpace c = true) (hb : pyStrip l ≠ "") :
    compressLine st l = st := by
  have hat : c ≠ '@' := by intro h; subst h; simp [isPySpace] at hc
  have hcl : c ≠ 'c' := by intro h; subst h; simp [isPySpace] at hc
  have hdf : c ≠ 'd' := by intro h; subst h; simp [isPySpace] at hc
  have hdec : decoratorMatch l = false := by
    unfold decoratorMatch
    rw [hl]
    cases cs <;> simp [hat]
  have hclassm : headerMatch "class" l = none := by
    have hpf : ("class".toList.isPrefixOf (c :: cs)) = false := by
      simp [List.isPrefixOf_cons₂, Ne.symm hcl]
    unfold headerMatch
    rw [hl]
    simp only [List.isPrefixOf_cons₂, hpf]
    rfl
  have hdefm : headerMatch "def" l = none := by
    have hpf : ("def".toList.isPrefixOf (c :: cs)) = false := by
      simp [List.isPrefixOf_cons₂, Ne.symm hdf]
    unfold headerMatch
    rw [hl]
    simp only [List.isPrefixOf_cons₂, hpf]
    rfl
  have hblank : (pyStrip l == "") = false := by
    simp [hb]
  simp [compressLine, hdec, hclassm, hdefm, hblank]

/-- Folding the compression loop over whitespace-led nonblank lines changes
nothing, whatever the current state. -/
theorem compressFold_skip (body : List String)
    (hind : ∀ l ∈ body, (l.toList.head?.any isPySpace) = true)
    (hnb : ∀ l ∈ body, pyStrip l ≠ "") :
    ∀ st : CompressState, body.foldl compressLine st = st := by
  induction body with
  | nil => intro st; rfl
  | cons l ls ih =>
    intro st
    have h1 := hind l (by simp)
    have h2 := hnb l (by simp)
    obtain ⟨c, cs, hl, hc⟩ : ∃ c cs, l.toList = c :: cs ∧ isPySpace c = true := by
      cases hlt : l.toList with
      | nil => rw [hlt] at h1; simp [Option.any] at h1
      | cons c cs =>
        rw [hlt] at h1
        simp [Option.any] at h1
        exact ⟨c, cs, rfl, h1⟩
    rw [List.foldl_cons, compressLine_skip st l c cs hl hc h2]
    exact ih (fun x hx => hind x (by simp [hx])) (fun x hx => hnb x (by simp [hx])) st

/-- The accumulate-in-a-loop of `extract_top_files` is the in-order
filter-then-clean of the response lines: output order is first-seen line
order, with nothing removed. -/
theorem extract_top_files_foldl_eq (ls : List String) (acc : List String) :
    ls.foldl
      (fun files line =>
        if pyStartsWith "- " line then
          files ++ [pyStrip (pyStripChars "- " (String.mk (line.toList.takeWhile (· ≠ '('))))]
        else files)
      acc
    = acc ++ (ls.filter (fun l => pyStartsWith "- " l)).map
        (fun line => pyStrip (pyStripChars "- " (String.mk (line.toList.takeWhile (· ≠ '('))))) := by
  induction ls generalizing acc with
  | nil => simp
  | cons l ls ih =>
    simp only [List.foldl_cons, List.filter_cons]
    by_cases hl : pyStartsWith "- " l = true
    · rw [if_pos hl, if_pos hl, ih, List.map_cons, List.append_assoc]
      rfl
    · rw [if_neg hl, if_neg hl, ih]

theorem pySlice_zero_take {α : Type} (l : List α) (k : Int) (hk : 0 ≤ k)
    (hkn : k ≤ (l.length : Int)) : pySlice l 0 k = l.take k.toNat := by
  unfold pySlice pySliceBounds
  have h1 : ¬((0 : Int) < 0) := by omega
  have h2 : ¬(k < 0) := by omega
  simp only [if_neg h1, if_neg h2]
  have h3 : min (0 : Int) (l.length : Int) = 0 := by omega
  have h4 : min k (l.length : Int) = k := by omega
  rw [h3, h4]
  simp

theorem pySlice_nil_of_start_ge {α : Type} (l : List α) (s e : Int)
    (h0 : 0 ≤ s) (hs : (l.length : Int) ≤ s) : pySlice l s e = [] := by
  unfold pySlice pySliceBounds
  have h1 : ¬(s < 0) := by omega
  have h2 : min s (l.length : Int) = (l.length : Int) := by omega
  rw [if_neg h1, h2]
  apply List.drop_eq_nil_of_le
  have hlen : ∀ b : Nat, (l.take b).length ≤ l.length := by
    intro b; simp [List.length_take]
  calc (l.take _).length ≤ l.length := hlen _
    _ ≤ (Int.ofNat l.length).toNat := by simp

/-! ### Claims -/

/-- C3 (counterexample): compressing the Scenario B source does NOT yield
`["class Foo:", "def bar():", "def baz():"]` — the header regexes are
anchored at the start of the line, so the indented `def bar():` is never
emitted. -/
theorem compressFile_scenarioB_cex :
    compressFile "class Foo:\n    def bar():\n        pass\n\ndef baz():\n    return 1\n"
      ≠ ["class Foo:", "def bar():", "def baz():"] := by
  decide

/-- C3 (amended): the Scenario B source compresses to exactly
`["class Foo:", "def baz():"]`: only headers at column 0 are recognized. -/
theorem compressFile_scenarioB_actual :
    compressFile "class Foo:\n    def bar():\n        pass\n\ndef baz():\n    return 1\n"
      = ["class Foo:", "def baz():"] := by
  decide

/-- C4 (counterexample): `extract_top_files` does not deduplicate — a
response repeating `a.py` parses to `["a.py", "a.py"]`, so the returned
identifiers are not unique. -/
theorem extract_top_files_no_dedup_cex :
    extract_top_files "- a.py (x)\n- a.py (y)\n" = ["a.py", "a.py"] ∧
    ¬ (extract_top_files "- a.py (x)\n- a.py (y)\n").Nodup := by
  decide

/-- C4 (amended): for every response, `extract_top_files` returns the
accepted lines in first-seen (line) order — the rank of a candidate is the
position of its first line — but performs no deduplication; in particular
`"- foo.py (reason)\n- bar.py (reason)\n"` parses to `["foo.py", "bar.py"]`
(rank 0 and rank 1), the bullet markers and parenthetical rationales
stripped. -/
theorem extract_top_files_order_and_scenario :
    (∀ r : String, extract_top_files r
      = ((pySplitLines r).filter (fun l => pyStartsWith "- " l)).map
          (fun line => pyStrip (pyStripChars "- " (String.mk (line.toList.takeWhile (· ≠ '(')))))) ∧
    extract_top_files "- foo.py (reason)\n- bar.py (reason)\n" = ["foo.py", "bar.py"] := by
  constructor
  · intro r
    unfold extract_top_files
    simpa using extract_top_files_foldl_eq (pySplitLines r) []
  · decide

/-- C6: skeleton soundness — a file consisting of a class-header line
followed only by indented (whitespace-led), nonblank body lines compresses
to the header capture alone: no body text is ever emitted. -/
theorem compressFile_skeleton_sound (text : String) (hline g : String) (body : List String)
    (hsplit : pyReadlines text = hline :: body)
    (hmatch : headerMatch "class" hline = some g)
    (hind : ∀ l ∈ body, (l.toList.head?.any isPySpace) = true)
    (hnb : ∀ l ∈ body, pyStrip l ≠ "") :
    compressFile text = [g] := by
  have hpf : "class".toList.isPrefixOf hline.toList = true := by
    by_contra hno
    unfold headerMatch at hmatch
    rw [if_neg hno] at hmatch
    exact Option.noConfusion hmatch
  have hdecor : decoratorMatch hline = false := by
    cases hl : hline.toList with
    | nil => rw [hl] at hpf; exact absurd hpf (by decide)
    | cons b bs =>
      rw [hl] at hpf
      have hb : b = 'c' := by
        rw [show "class".toList = 'c' :: 'l' :: 'a' :: 's' :: 's' :: [] from rfl,
          List.isPrefixOf_cons₂, Bool.and_eq_true, beq_iff_eq] at hpf
        exact hpf.1.symm
      subst hb
      unfold decoratorMatch
      rw [hl]
      cases bs <;> rfl
  have hfirst : compressLine ⟨false, false, []⟩ hline = ⟨true, false, [g]⟩ := by
    unfold compressLine
    rw [hdecor, hmatch]
    rfl
  unfold compressFile
  rw [hsplit, List.foldl_cons, hfirst, compressFold_skip body hind hnb]

/-- C6 witness: a concrete class-only file compresses to its header. -/
theorem compressFile_skeleton_sound_witness :
    compressFile "class Foo:\n    x = 1\n    y = 2\n" = ["class Foo:"] :=
  compressFile_skeleton_sound "class Foo:\n    x = 1\n    y = 2\n" "class Foo:\n"
    "class Foo:" ["    x = 1\n", "    y = 2\n"] (by decide) (by decide)
    (by decide) (by decide)

/-- C7: `build_tree` is deterministic for a fixed snapshot — its output
does not depend on the order in which the filesystem enumerates directory
entries, because each level is sorted before rendering.  Two filesystems
whose listings agree up to permutation at every path (and agree on which
paths are directories) render identical text at every root, indent and
recursion depth; in particular two calls on the same snapshot return
identical text. -/
theorem build_tree_deterministic (fs1 fs2 : FS)
    (hl : ∀ p, (fs1.listdir p).Perm (fs2.listdir p))
    (hd : ∀ p, fs1.isdir p = fs2.isdir p) :
    ∀ (fuel : Nat) (dir_path : String) (indent : Nat),
      build_tree fs1 fuel dir_path indent = build_tree fs2 fuel dir_path indent := by
  intro fuel
  induction fuel with
  | zero => intro dir_path indent; rfl
  | succ n ih =>
    intro dir_path indent
    show (pySorted (fs1.listdir dir_path)).foldl _ "" = (pySorted (fs2.listdir dir_path)).foldl _ ""
    rw [pySorted_perm_eq (hl dir_path)]
    refine List.foldl_ext _ _ "" (fun acc item _ => ?_)
    dsimp only
    rw [hd (pathJoin dir_path item), ih (pathJoin dir_path item) (indent + 1)]

/-- C7 witness: two enumerations of the same two-file directory, one
reversed, render the same tree. -/
theorem build_tree_deterministic_witness :
    build_tree
      ⟨fun p => if p = "/pkg" then ["b.py", "a.py"] else [], fun _ => false,
        fun _ => none, fun _ => false⟩ 3 "/pkg" 0
    = build_tree
      ⟨fun p => if p = "/pkg" then ["a.py", "b.py"] else [], fun _ => false,
        fun _ => none, fun _ => false⟩ 3 "/pkg" 0 :=
  build_tree_deterministic _ _
    (fun p => by
      by_cases hp : p = "/pkg"
      · simp only [hp, if_pos rfl]
        decide
      · simp only [if_neg hp]
        exact List.Perm.refl _)
    (fun _ => rfl) 3 "/pkg" 0

/-- C8: context-window clamping.  For an existing file, `get_context_window`
is total (never raises) at every requested range, and whenever
`start - window < 0` the returned window begins at line 0: it is the slice
of the lines of the file from index `0` to `min (file length) (stop + window)`;
when additionally `stop + window` is nonnegative, that slice is exactly the
prefix of the first `min (file length) (stop + window)` lines. -/
theorem get_context_window_clamps (fs : FS) (file_path text : String) (s e w : Int)
    (hex : fs.contents file_path = some text) (hs : s - w < 0) :
    (∀ s' e' w' : Int, (get_context_window fs file_path (s', e') w').isSome) ∧
    get_context_window fs file_path (s, e) w
      = some (String.join (pySlice (pyReadlines text) 0
          (min ((pyReadlines text).length : Int) (e + w)))) ∧
    (0 ≤ e + w →
      get_context_window fs file_path (s, e) w
        = some (String.join ((pyReadlines text).take
            (min ((pyReadlines text).length : Int) (e + w)).toNat))) := by
  have hmax : max 0 (s - w) = 0 := by omega
  refine ⟨fun s' e' w' => ?_, ?_, fun he => ?_⟩
  · unfold get_context_window
    rw [hex]
    rfl
  · unfold get_context_window
    rw [hex]
    simp only [Option.map_some']
    rw [hmax]
  · unfold get_context_window
    rw [hex]
    simp only [Option.map_some']
    rw [hmax]
    rw [pySlice_zero_take _ _ (by omega) (by omega)]

/-- C8 witness: a three-line file, requested range `(-5, 1)` with window
`10`: the call returns the whole file, beginning at line 0. -/
theorem get_context_window_clamps_witness :
    ((-5 : Int) - 10 < 0) ∧
    get_context_window
      ⟨fun _ => [], fun _ => false, fun p => if p = "f.py" then some "l1\nl2\nl3\n" else none,
        fun _ => false⟩ "f.py" (-5, 1) 10
      = some (String.join (pySlice (pyReadlines "l1\nl2\nl3\n") 0
          (min ((pyReadlines "l1\nl2\nl3\n").length : Int) (1 + 10)))) :=
  ⟨by decide,
    (get_context_window_clamps _ "f.py" "l1\nl2\nl3\n" (-5) 1 10 rfl (by decide)).2.1⟩

/-- C10: a window entirely past the end of the file yields the empty
string, not an error: if the clamped start `max 0 (start - window)` is at
or beyond the number of lines, `get_context_window` returns `some ""`. -/
theorem get_context_window_past_eof (fs : FS) (file_path text : String) (s e w : Int)
    (hex : fs.contents file_path = some text)
    (hpast : ((pyReadlines text).length : Int) ≤ max 0 (s - w)) :
    get_context_window fs file_path (s, e) w = some "" := by
  unfold get_context_window
  rw [hex]
  simp only [Option.map_some']
  rw [pySlice_nil_of_start_ge _ _ _ (by omega) (by omega)]
  rfl

/-- C10 witness: requesting lines `(100, 200)` of a three-line file returns
the empty string. -/
theorem get_context_window_past_eof_witness :
    (((pyReadlines "l1\nl2\nl3\n").length : Int) ≤ max 0 ((100 : Int) - 10)) ∧
    get_context_window
      ⟨fun _ => [], fun _ => false, fun p => if p = "f.py" then some "l1\nl2\nl3\n" else none,
        fun _ => false⟩ "f.py" (100, 200) 10 = some "" :=
  ⟨by decide,
    get_context_window_past_eof _ "f.py" "l1\nl2\nl3\n" 100 200 10 rfl (by decide)⟩

/-- C9: when no client is configured, `get_llm_response` raises the
configuration error immediately — the request log is unchanged, so no
request is ever issued — and a configured call issues at most one request
(there is no internal retry); moreover a `process_task` run that reaches
the service (its `repo_info` subscripts succeed, so no `KeyError`
preempts the call) surfaces the same error having issued zero requests. -/
theorem get_llm_response_config_error (gen : ContextGenerator) (log : List String)
    (prompt model : String) (hnone : gen.client = none) :
    get_llm_response gen log prompt model
      = (log, Except.error (LlmError.valueError "OpenAI API key not provided")) ∧
    (∀ (gen' : ContextGenerator) (log' : List String) (p' m' : String),
      (get_llm_response gen' log' p' m').1.length ≤ log'.length + 1) ∧
    (∀ (A : AnalyzerStubs) (task : PyDict) (owner repo : String),
      dictLookup (A.derive_repo_info task) "repo_owner" = some owner →
      dictLookup (A.derive_repo_info task) "repo_name" = some repo →
      process_task A gen task
        = ([], Except.error (LlmError.valueError "OpenAI API key not provided"))) := by
  refine ⟨?_, fun gen' log' p' m' => ?_, fun A task owner repo hro hrn => ?_⟩
  · unfold get_llm_response
    rw [hnone]
  · unfold get_llm_response
    cases hcl : gen'.client with
    | none => simp
    | some f => simp
  · simp only [process_task, get_llm_response]
    rw [hnone, hro, hrn]

/-- C9 witness: a generator built without an API key errors immediately
with no request issued, both in a direct call and through a pipeline run
whose `repo_info` carries both keys. -/
theorem get_llm_response_config_error_witness :
    get_llm_response ⟨none, none⟩ [] "p" "m"
      = ([], Except.error (LlmError.valueError "OpenAI API key not provided")) ∧
    process_task
      ⟨fun _ => [("repo_owner", "o"), ("repo_name", "n")], fun _ _ _ _ _ => "FP",
        fun _ _ _ _ _ _ => "QP", fun _ _ _ _ _ _ => "LP"⟩
      ⟨none, none⟩ []
      = ([], Except.error (LlmError.valueError "OpenAI API key not provided")) :=
  ⟨(get_llm_response_config_error ⟨none, none⟩ [] "p" "m" rfl).1,
   (get_llm_response_config_error ⟨none, none⟩ [] "p" "m" rfl).2.2
     ⟨fun _ => [("repo_owner", "o"), ("repo_name", "n")], fun _ _ _ _ _ => "FP",
       fun _ _ _ _ _ _ => "QP", fun _ _ _ _ _ _ => "LP"⟩
     [] "o" "n" rfl rfl⟩

/-- C2 (counterexample): a run whose FUNCTION-stage response is empty — the
oracle answers `""` to every prompt, so the parsed FUNCTION candidate set
`pyDashCandidates ""` is `[]` — still issues all four generative requests
(FILE, FUNCTION, LINE, test-case) and returns an ordinary result record:
the LINE stage is invoked and no `NoCandidates`-style failure exists.
(`derive_repo_info` supplies both `repo_info` keys here, so the run gets
past the subscripts that would otherwise raise `KeyError`.) -/
theorem process_task_empty_function_stage_cex :
    pyDashCandidates "" = [] ∧
    (process_task
      ⟨fun _ => [("repo_owner", "o"), ("repo_name", "n")], fun _ _ _ _ _ => "FP",
        fun _ _ _ _ _ _ => "QP", fun _ _ _ _ _ _ => "LP"⟩
      ⟨none, some fun _ => ""⟩ []).1.length = 4 ∧
    (process_task
      ⟨fun _ => [("repo_owner", "o"), ("repo_name", "n")], fun _ _ _ _ _ => "FP",
        fun _ _ _ _ _ _ => "QP", fun _ _ _ _ _ _ => "LP"⟩
      ⟨none, some fun _ => ""⟩ []).2.isOk = true ∧
    ¬ (process_task
      ⟨fun _ => [("repo_owner", "o"), ("repo_name", "n")], fun _ _ _ _ _ => "FP",
        fun _ _ _ _ _ _ => "QP", fun _ _ _ _ _ _ => "LP"⟩
      ⟨none, some fun _ => ""⟩ []).1.length ≤ 2 := by
  refine ⟨rfl, rfl, rfl, by decide⟩

/-- C2 (amended): `process_task` contains no emptiness check.  Whenever a
client is configured and the derived `repo_info` carries the `repo_owner`
and `repo_name` keys (so no `KeyError` preempts the stages), it issues
exactly four generative requests — one per localization stage plus the
test-case request — and returns an ordinary result record, whatever the
stage responses parse to; an empty candidate set is simply carried
forward, and no `NoCandidates` outcome exists. -/
theorem process_task_no_early_termination (A : AnalyzerStubs) (gen : ContextGenerator)
    (f : String → String) (task : PyDict) (owner repo : String)
    (hcl : gen.client = some f)
    (hro : dictLookup (A.derive_repo_info task) "repo_owner" = some owner)
    (hrn : dictLookup (A.derive_repo_info task) "repo_name" = some repo) :
    (process_task A gen task).1.length = 4 ∧ (process_task A gen task).2.isOk = true := by
  simp only [process_task, get_llm_response]
  rw [hcl, hro, hrn]
  simp [Except.isOk, Except.toBool]

/-- C2 witness: the amended theorem at a concrete configured generator
whose `repo_info` carries both keys. -/
theorem process_task_no_early_termination_witness :
    (process_task
      ⟨fun _ => [("repo_owner", "o"), ("repo_name", "n")], fun _ _ _ _ _ => "FP",
        fun _ _ _ _ _ _ => "QP", fun _ _ _ _ _ _ => "LP"⟩
      ⟨none, some fun _ => "- x.py\n"⟩ []).1.length = 4 ∧
    (process_task
      ⟨fun _ => [("repo_owner", "o"), ("repo_name", "n")], fun _ _ _ _ _ => "FP",
        fun _ _ _ _ _ _ => "QP", fun _ _ _ _ _ _ => "LP"⟩
      ⟨none, some fun _ => "- x.py\n"⟩ []).2.isOk = true :=
  process_task_no_early_termination _ _ (fun _ => "- x.py\n") [] "o" "n" rfl rfl rfl

/-- The formatted block written by the snapshot version of `inject_tests` carries
the sentinel, so any content it has been appended to contains the
sentinel. -/
theorem sentinel_in_formatted (existing T : String) :
    listContains sentinel.toList (existing ++ HistoryHarness.formatted_tests T).toList = true := by
  have hdecomp : (existing ++ HistoryHarness.formatted_tests T).toList
      = (existing.toList ++ ("\n" ++ String.mk (List.replicate 80 '#') ++ "\n").toList)
        ++ sentinel.toList
        ++ (("\n" ++ String.mk (List.replicate 80 '#') ++ "\n") ++ pyStrip T ++ "\n").toList := by
    simp only [HistoryHarness.formatted_tests, sentinel, String.toList, String.data_append,
      List.append_assoc]
  rw [hdecomp]
  exact listContains_sandwich _ _ _

/-- C1 (counterexample): the live `inject_tests` of
`UTBoost_experiment/swe_bench_harness.py` is not idempotent: on a file
containing `"x"`, a first call succeeds, and a second call appends a
second marker block, changing the content away from the state after the
first call alone — no sentinel check exists in the live code. -/
theorem inject_tests_not_idempotent_cex :
    (Harness.inject_tests fsOneFile taskT "T1").2 = Except.ok "t.py" ∧
    (Harness.inject_tests (Harness.inject_tests fsOneFile taskT "T1").1 taskT "T2").2
      = Except.ok "t.py" ∧
    (Harness.inject_tests (Harness.inject_tests fsOneFile taskT "T1").1 taskT "T2").1.contents "t.py"
      ≠ (Harness.inject_tests fsOneFile taskT "T1").1.contents "t.py" := by
  refine ⟨rfl, rfl, by decide⟩

/-- C1 (amended): the sentinel-checking `inject_tests` of the snapshot
`swe_bench_harness_20250419213149.py` is idempotent: after a successful
first injection, a second call with any generated text leaves the
filesystem (hence the file content) unchanged, and with nonempty text it
returns the unchanged path; the live harness version appends
unconditionally instead (see the counterexample). -/
theorem inject_tests_snapshot_idempotent (fs : FS) (task : PyDict) (T1 T2 : String)
    (fs1 : FS) (p : String)
    (h : HistoryHarness.inject_tests fs task T1 = (fs1, Except.ok p)) :
    (HistoryHarness.inject_tests fs1 task T2).1 = fs1 ∧
    (T2 ≠ "" → HistoryHarness.inject_tests fs1 task T2 = (fs1, Except.ok p)) := by
  unfold HistoryHarness.inject_tests at h
  by_cases h1 : T1 = ""
  · rw [if_pos h1] at h
    exact Except.noConfusion (congrArg Prod.snd h)
  · rw [if_neg h1] at h
    cases hlk : dictLookup task "test_file" with
    | none =>
      rw [hlk] at h
      exact Except.noConfusion (congrArg Prod.snd h)
    | some tf =>
      rw [hlk] at h
      dsimp only [Option.isNone_some, Option.getD_some] at h
      rw [if_neg (by simp)] at h
      cases hc : fs.contents tf with
      | none =>
        rw [hc] at h
        dsimp only at h
        split at h <;> exact Except.noConfusion (congrArg Prod.snd h)
      | some existing =>
        rw [hc] at h
        dsimp only at h
        by_cases hsent : listContains sentinel.toList existing.toList = true
        · rw [if_pos hsent] at h
          injection h with hfs hok
          injection hok with hp
          subst hfs
          subst hp
          unfold HistoryHarness.inject_tests
          by_cases h2 : T2 = ""
          · rw [if_pos h2]
            exact ⟨rfl, fun hne => absurd h2 hne⟩
          · rw [if_neg h2, hlk]
            dsimp only [Option.isNone_some, Option.getD_some]
            rw [if_neg (by simp), hc]
            dsimp only
            rw [if_pos hsent]
            exact ⟨rfl, fun _ => rfl⟩
        · rw [if_neg hsent] at h
          by_cases hw : fs.writable tf = true
          · rw [if_pos hw] at h
            injection h with hfs hok
            injection hok with hp
            subst hp
            have hcontents : fs1.contents tf
                = some (existing ++ HistoryHarness.formatted_tests T1) := by
              rw [← hfs]
              simp
            have hsent1 : listContains sentinel.toList
                ((existing ++ HistoryHarness.formatted_tests T1)).toList = true :=
              sentinel_in_formatted existing T1
            unfold HistoryHarness.inject_tests
            by_cases h2 : T2 = ""
            · rw [if_pos h2]
              exact ⟨rfl, fun hne => absurd h2 hne⟩
            · rw [if_neg h2, hlk]
              dsimp only [Option.isNone_some, Option.getD_some]
              rw [if_neg (by simp), hcontents]
              dsimp only
              rw [if_pos hsent1]
              exact ⟨rfl, fun _ => rfl⟩
          · rw [if_neg hw] at h
            exact Except.noConfusion (congrArg Prod.snd h)

/-- C1 witness: on a concrete writable file, a successful injection via
the snapshot version followed by a second call leaves the filesystem
unchanged and returns the same path. -/
theorem inject_tests_snapshot_idempotent_witness :
    (HistoryHarness.inject_tests (HistoryHarness.inject_tests fsOneFile taskT "T1").1 taskT "T2").1
      = (HistoryHarness.inject_tests fsOneFile taskT "T1").1 ∧
    HistoryHarness.inject_tests (HistoryHarness.inject_tests fsOneFile taskT "T1").1 taskT "T2"
      = ((HistoryHarness.inject_tests fsOneFile taskT "T1").1, Except.ok "t.py") := by
  have h := inject_tests_snapshot_idempotent fsOneFile taskT "T1" "T2"
    (HistoryHarness.inject_tests fsOneFile taskT "T1").1 "t.py"
    (Prod.ext rfl rfl)
  exact ⟨h.1, h.2 (by decide)⟩

/-- C5 (counterexample): the live `inject_tests` performs no validation.
On a missing target file it succeeds (append mode creates the file) instead
of failing with a not-found error, and on empty generated text it succeeds
and modifies the file instead of failing with an invalid-input error. -/
theorem inject_tests_current_no_validation_cex :
    fsNoFile.contents "t.py" = none ∧
    (Harness.inject_tests fsNoFile taskT "x").2 = Except.ok "t.py" ∧
    (Harness.inject_tests fsOneFile taskT "").2 = Except.ok "t.py" ∧
    (Harness.inject_tests fsOneFile taskT "").1.contents "t.py" ≠ fsOneFile.contents "t.py" := by
  refine ⟨rfl, rfl, rfl, by decide⟩

/-- C5 (amended): the validation the claim describes lives in the snapshot
`swe_bench_harness_20250419213149.py`: its `inject_tests` fails with
`ValueError` on empty generated text, with `FileNotFoundError` when the
target file does not exist, and with `PermissionError` when the file
cannot be opened for append — and in each failure it leaves the
filesystem, hence the content of the target file, unchanged.  The live harness
version performs none of these checks (see the counterexample). -/
theorem inject_tests_snapshot_error_cases (fs : FS) (task : PyDict) (tests tf : String) :
    (tests = "" → HistoryHarness.inject_tests fs task tests
      = (fs, Except.error (InjectError.valueError "utboost_tests must be a non-empty string"))) ∧
    (tests ≠ "" → dictLookup task "test_file" = some tf → fs.contents tf = none →
      fs.isdir tf = false →
      HistoryHarness.inject_tests fs task tests = (fs, Except.error InjectError.fileNotFound)) ∧
    (tests ≠ "" → dictLookup task "test_file" = some tf →
      ∀ existing, fs.contents tf = some existing →
      listContains sentinel.toList existing.toList = false → fs.writable tf = false →
      HistoryHarness.inject_tests fs task tests = (fs, Except.error InjectError.permissionDenied)) := by
  refine ⟨fun hempty => ?_, fun hne hlk hc hd => ?_, fun hne hlk existing hc hsent hw => ?_⟩
  · unfold HistoryHarness.inject_tests
    rw [if_pos hempty]
  · unfold HistoryHarness.inject_tests
    rw [if_neg hne, hlk]
    dsimp only [Option.isNone_some, Option.getD_some]
    rw [if_neg (by simp), hc]
    dsimp only
    rw [if_neg (by simp [hd])]
  · unfold HistoryHarness.inject_tests
    rw [if_neg hne, hlk]
    dsimp only [Option.isNone_some, Option.getD_some]
    rw [if_neg (by simp), hc]
    dsimp only
    have hsent2 : listContains sentinel.data existing.data = false := hsent
    rw [if_neg (by simp [hsent2]), if_neg (by simp [hw])]

/-- C5 witness: the three snapshot failure modes at concrete inputs, each
leaving the filesystem unchanged. -/
theorem inject_tests_snapshot_error_cases_witness :
    HistoryHarness.inject_tests fsOneFile taskT ""
      = (fsOneFile, Except.error (InjectError.valueError "utboost_tests must be a non-empty string")) ∧
    HistoryHarness.inject_tests fsNoFile taskT "x"
      = (fsNoFile, Except.error InjectError.fileNotFound) ∧
    HistoryHarness.inject_tests fsLocked taskT "x"
      = (fsLocked, Except.error InjectError.permissionDenied) :=
  ⟨(inject_tests_snapshot_error_cases fsOneFile taskT "" "t.py").1 rfl,
   (inject_tests_snapshot_error_cases fsNoFile taskT "x" "t.py").2.1 (by decide) rfl rfl rfl,
   (inject_tests_snapshot_error_cases fsLocked taskT "x" "t.py").2.2 (by decide) rfl "x" rfl
     (by decide) rfl⟩
